import Mathlib

/-!
Shallow embedding of the dls-pmac-lib protocol client
(`dls_pmaclib/dls_pmacremote.py`): the Ethernet transport's
terminator classification, the `sendCommand` façade, the `sendSeries`
generator with its semaphore discipline, the SSH/gpascii transport,
model-registry lookups, and the axis/macro-station addressing
arithmetic.  Machine strings are modelled as `String` or as byte
lists (`List Nat`); fallible code returns `Except`/sum types; the
exceptions a Python function may raise are explicit constructors of
its result type.
-/

namespace DlsPmacLib

/-! ## Protocol byte constants (source: module-level constants) -/

def CHAR_ACK : Nat := 0x06

def CHAR_RETURN : Nat := 0x0D

def CHAR_NULL : Nat := 0x00

/-! ## Generic list/string helpers used by the embedding -/

/-- Boolean prefix test on lists (used to express the Python `in`
substring operator and `str.replace` scanning). -/
def leadsWith {α : Type} [BEq α] : List α → List α → Bool
  | [], _ => true
  | _ :: _, [] => false
  | a :: as, b :: bs => a == b && leadsWith as bs

/-- Boolean substring (contiguous sublist) test: the Python `in`
operator on strings. -/
def hasSub {α : Type} [BEq α] (needle : List α) : List α → Bool
  | [] => leadsWith needle []
  | c :: t => leadsWith needle (c :: t) || hasSub needle (c :: t).tail

/-- Python `str.replace pat rep`: replace every non-overlapping
occurrence of `pat`, scanning left to right, not re-scanning the
replacement text. -/
def replaceAll (pat rep : List Char) : List Char → List Char
  | [] => []
  | c :: t =>
    if pat ≠ [] && leadsWith pat (c :: t) then
      rep ++ replaceAll pat rep (List.drop (pat.length - 1) t)
    else
      c :: replaceAll pat rep t
termination_by s => s.length
decreasing_by
  · simp [List.length_drop]
    omega
  · simp

/-- Python slice `s[k:]` (supporting a negative start index, which
counts from the end of the string). -/
def pySliceFrom (s : List Char) (k : Int) : List Char :=
  if k < 0 then s.drop (s.length + k).toNat else s.drop k.toNat

/-- Decode a byte list into a string (responses are ASCII). -/
def bytesToString (l : List Nat) : String :=
  String.mk (l.map Char.ofNat)

/-! ## `RemotePmacInterface.commandNeedsDoubleTimeout` -/

/-- `commandNeedsDoubleTimeout(command)`: Python
`"SAVE" in command.upper()`. -/
def commandNeedsDoubleTimeout (command : String) : Bool :=
  hasSub "SAVE".toList (command.toList.map Char.toUpper)

/-! ## `PmacEthernetInterface._sendCommand`

The function is modelled as a function of the sequence of chunks the
socket delivers: `first` is the result of the initial
`self.sock.recv(2048)` and `rest` the results of the `recv` calls
made by the continuation (GETBUFFER) loop.  An exhausted `rest` list
models a `recv` that blocks until the socket timeout fires
(`socket.error`, re-raised as `IOError "Socket communication
error"`). -/

/-- The outcome of the Ethernet `_sendCommand`: a returned string, an
`IOPmacSentNullError`, an `IOError`, or a Python `IndexError`
(raised by `returnStr[len(returnStr) - 1]` on an empty string, and
not caught by any handler in the function). -/
inductive EthResult where
  | ok (resp : List Nat)
  | nullErr (msg : String)
  | ioErr (msg : String)
  | indexErr
  deriving Repr, DecidableEq

/-- `returnStr[len(returnStr) - 2]` for strings of length ≥ 2. -/
def secondLast (l : List Nat) : Nat := l.dropLast.getLastD 0

/-- The bytes of the truncation-warning text spliced into a
multi-buffer response. -/
def warningBytes : List Nat :=
  " WARNING: response truncated.".toList.map Char.toNat

/-- The code after the continuation loop exits (source lines
965-979): a final CR is a communication error; a second-to-last byte
other than CR gets the truncation warning spliced in before the
final byte; otherwise the accumulated string is returned. -/
def ethAfterLoop (acc : List Nat) : EthResult :=
  if acc.getLastD 0 = CHAR_RETURN then
    .ioErr "PMAC communication error"
  else if acc.length > 1 ∧ secondLast acc ≠ CHAR_RETURN then
    .ok (acc.dropLast ++ warningBytes ++ [acc.getLastD 0])
  else
    .ok acc

/-- The `while enterLoop` continuation loop (source lines 955-963):
request further 2048-byte chunks until the accumulated string ends in
ACK or CR.  An empty chunk makes `tmp[len(tmp) - 1]` raise
`IndexError`; a short chunk ending in NUL raises
`IOPmacSentNullError`. -/
def ethLoop : List Nat → List (List Nat) → EthResult
  | acc, [] =>
    if acc.getLastD 0 = CHAR_ACK ∨ acc.getLastD 0 = CHAR_RETURN then
      ethAfterLoop acc
    else
      .ioErr "Socket communication error"
  | acc, tmp :: rest =>
    if acc.getLastD 0 = CHAR_ACK ∨ acc.getLastD 0 = CHAR_RETURN then
      ethAfterLoop acc
    else if tmp.length = 0 then
      .indexErr
    else if tmp.length < 1400 ∧ tmp.getLastD 0 = CHAR_NULL then
      .nullErr "Connection to PMAC lost"
    else
      ethLoop (acc ++ tmp) rest

/-- `PmacEthernetInterface._sendCommand` viewed as a function of the
received chunks.  Mirrors the source's classification of the first
chunk (lines 920-947) followed by the continuation loop.  Note that
`last_char = returnStr[len(returnStr) - 1]` is computed before any
branch, so an empty first chunk raises `IndexError` and the
`response_len == 0` disjunct below it is unreachable. -/
def ethExchange (first : List Nat) (rest : List (List Nat)) : EthResult :=
  if first.length = 0 then
    .indexErr
  else
    let last := first.getLastD 0
    let short := first.length < 1400
    if short ∧ last = CHAR_RETURN then
      -- timeout or error: allow error responses to pass up
      .ok first
    else if short ∧ last = CHAR_NULL then
      .nullErr "Did not respond - PMAC busy or connection lost"
    else if (short ∧ last ≠ CHAR_ACK) ∨ first.length = 0 then
      .ioErr "PMAC communication error: unexpected terminator"
    else if short ∧ first.length > 1 ∧ secondLast first ≠ CHAR_RETURN then
      .ioErr "Truncated short response"
    else
      ethLoop first rest

/-! ## `RemotePmacInterface.sendCommand` -/

/-- What a transport's `_sendCommand` can do, as seen by the
`sendCommand` façade: return a reply (possibly `None`, on the SSH
transport), raise `IOPmacSentNullError`, raise another `IOError`, or
raise an exception of any other class (which `sendCommand` does not
catch). -/
inductive ExchangeOutcome where
  | reply (s : Option String)
  | nullErr (msg : String)
  | ioErr (msg : String)
  | otherExc (name : String)
  deriving Repr, DecidableEq

/-- The result of `sendCommand`: either a returned
`(response, wasSuccessful)` tuple, or an uncaught exception
propagating to the caller. -/
inductive SendResult where
  | ret (response : Option String) (wasSuccessful : Bool)
  | exc (name : String)
  deriving Repr, DecidableEq

/-- `RemotePmacInterface.sendCommand` (source lines 188-214): the
NULL condition is swallowed into `("", True)` exactly on
double-timeout (SAVE) commands, other `IOError`s become
`(message, False)`, any other exception propagates. -/
def sendCommand (command : String) (outcome : ExchangeOutcome) : SendResult :=
  let doubleTimeout := commandNeedsDoubleTimeout command
  match outcome with
  | .reply s => .ret s true
  | .nullErr m =>
    if doubleTimeout then
      .ret (some "") true
    else
      .ret (some ("I/O error during comm with PMAC: " ++ m)) false
  | .ioErr m => .ret (some ("I/O error during comm with PMAC: " ++ m)) false
  | .otherExc n => .exc n

/-- Lift an Ethernet exchange outcome to the façade's view. -/
def ethOutcome : EthResult → ExchangeOutcome
  | .ok resp => .reply (some (bytesToString resp))
  | .nullErr m => .nullErr m
  | .ioErr m => .ioErr m
  | .indexErr => .otherExc "IndexError"

/-- `sendCommand` over the Ethernet transport, as a function of the
received chunks. -/
def ethSendCommand (command : String) (first : List Nat)
    (rest : List (List Nat)) : SendResult :=
  sendCommand command (ethOutcome (ethExchange first rest))

/-! ## `RemotePmacInterface.sendSeries`

The generator is modelled as a function of the per-command
`sendCommand` results and of the consumer's behaviour, summarised by
`limit`: the number of `next()` calls the consumer makes before
closing the generator.  Python generator semantics: the body does not
run before the first `next()`; each `next()` runs one loop iteration
up to its `yield`; closing a generator suspended at a `yield` raises
`GeneratorExit` there (caught by the source, which releases the
semaphore); an exception raised inside the loop body propagates and
terminates the generator without running any release. -/

/-- How a run of the `sendSeries` generator ended. -/
inductive SeriesExit where
  | normal
  | cancelled
  | notStarted
  | faulted (e : String)
  deriving Repr, DecidableEq

/-- Observable outcome of a `sendSeries` run: the yielded tuples, whether
the semaphore is still held when the generator is gone, and how it
exited. -/
structure SeriesOut where
  yields : List (Bool × Nat × String × Option String)
  semHeld : Bool
  exitKind : SeriesExit
  deriving Repr, DecidableEq

/-- One position of `re.compile(r"ERR\d{3}").findall`: the text
contains `ERR` followed by three digits. -/
def hasErrCode : List Char → Bool
  | 'E' :: 'R' :: 'R' :: a :: b :: c :: _ =>
    a.isDigit && b.isDigit && c.isDigit
  | _ => false

/-- `errRegExp.findall(s)` is truthy: some suffix starts with
`ERR` + three digits. -/
def containsErrCode : List Char → Bool
  | [] => false
  | c :: t => hasErrCode (c :: t) || containsErrCode t

/-- The `for` loop of `sendSeries` (source lines 450-479), entered
with the semaphore held and at least one `next()` call pending.  A
`SendResult.exc` from `sendCommand`, or `errRegExp.findall(None)`
(a `TypeError`, which happens when `sendCommand` returned
`(None, True)`), terminates the generator with the semaphore held:
the source has no release on that path. -/
def seriesLoop : List ((Nat × String) × SendResult) → Nat → SeriesOut
  | [], _ => ⟨[], false, .normal⟩
  | ((ln, cmd), res) :: rest, limit =>
    match res with
    | .exc e => ⟨[], true, .faulted e⟩
    | .ret respOpt ws =>
      match respOpt with
      | none =>
        if ws then
          ⟨[], true, .faulted "TypeError"⟩
        else
          let y := (false, ln, cmd, (none : Option String))
          if limit ≤ 1 then ⟨[y], false, .cancelled⟩
          else
            let o := seriesLoop rest (limit - 1)
            ⟨y :: o.yields, o.semHeld, o.exitKind⟩
      | some resp =>
        let ws2 := ws && !containsErrCode resp.toList
        let y := (ws2, ln, cmd, some resp)
        if limit ≤ 1 then ⟨[y], false, .cancelled⟩
        else
          let o := seriesLoop rest (limit - 1)
          ⟨y :: o.yields, o.semHeld, o.exitKind⟩

/-- `RemotePmacInterface.sendSeries` as a whole: with `limit = 0` the
consumer closes the generator before it ever runs, so the semaphore
is never acquired; otherwise the body acquires the semaphore and
enters the loop. -/
def runSendSeries (cmds : List ((Nat × String) × SendResult))
    (limit : Nat) : SeriesOut :=
  if limit = 0 then ⟨[], false, .notStarted⟩
  else seriesLoop cmds limit

/-- A `sendCommand` result that makes the `sendSeries` loop body
raise: an uncaught exception from `sendCommand` itself, or a
`(None, True)` result (then `errRegExp.findall(None)` raises
`TypeError`). -/
def stepFaults : SendResult → Bool
  | .exc _ => true
  | .ret none true => true
  | _ => false

/-- The tuple `sendSeries` yields for one command whose `sendCommand`
returned `(resp, ws)` with a string response: success is reported iff
`ws` held and the response contains no `ERR` + three digits. -/
def expectedYield : ((Nat × String) × SendResult) →
    Bool × Nat × String × Option String
  | ((ln, cmd), .ret (some r) ws) =>
    (ws && !containsErrCode r.toList, ln, cmd, some r)
  | ((ln, cmd), _) => (false, ln, cmd, none)

/-! ## `PPmacSshInterface._sendCommand`

Modelled as a function of the channel's behaviour: whether
`gpascii_client.send` raises (`sendRes = none`) or returns a byte
count, and the successive results of `gpascii_client.recv(...).decode()`
(`none` models a raised exception).  The whole body runs inside
`try: ... except Exception: return None`. -/

/-- The channel behaviour the SSH exchange consumes. -/
structure SshIO where
  sendRes : Option Nat
  recvs : List (Option (List Char))
  deriving Repr, DecidableEq

/-- Result of the SSH exchange: a returned value (`none` when the
exception handler fired), or blocked forever waiting for bytes that
never arrive. -/
inductive SshResult where
  | val (r : Option (List Char))
  | blocked
  deriving Repr, DecidableEq

/-- Outcome of the sentinel-scanning receive loop. -/
inductive SshLoopRes where
  | done (resp : List Char)
  | exc
  | blocked
  deriving Repr, DecidableEq

/-- The end-of-response sentinel `"\x06\r\n\x06\r\n"`. -/
def sshSentinel : List Char := ['\x06', '\r', '\n', '\x06', '\r', '\n']

/-- The `while "\x06\r\n\x06\r\n" not in response[startPos:]` loop
(source lines 727-733): append further received chunks, advancing
`startPos` by the length of each appended chunk. -/
def sshRecvLoop : List Char → Nat → List (Option (List Char)) → SshLoopRes
  | response, startPos, [] =>
    if hasSub sshSentinel (response.drop startPos) then .done response
    else .blocked
  | response, startPos, r :: rest =>
    if hasSub sshSentinel (response.drop startPos) then .done response
    else
      match r with
      | none => .exc
      | some s => sshRecvLoop (response ++ s) (startPos + s.length) rest

/-- The post-processing of a terminated SSH response (source lines
735-739): drop the first `n - 2` echoed bytes, then the four
`str.replace` passes. -/
def sshPostProcess (n : Nat) (resp : List Char) : List Char :=
  let r1 := pySliceFrom resp ((n : Int) - 2)
  let r2 := replaceAll "\r\n\r\n".toList [] r1
  let r3 := replaceAll "\r\n".toList ['\r'] r2
  let r4 := replaceAll ['\x06'] [] r3
  replaceAll "\r\r\r".toList ['\r'] r4

/-- `PPmacSshInterface._sendCommand` (source lines 705-745): any
exception raised while sending or receiving makes the function return
`None`; a terminated response is post-processed and returned. -/
def sshSendCommand (_command : String) (io : SshIO) : SshResult :=
  match io.sendRes with
  | none => .val none
  | some n =>
    match io.recvs with
    | [] => .blocked
    | first :: rest =>
      match first with
      | none => .val none
      | some r0 =>
        match sshRecvLoop r0 0 rest with
        | .blocked => .blocked
        | .exc => .val none
        | .done resp => .val (some (sshPostProcess n resp))

/-! ## Model registry (`getPmacModel` / `getShortModelName`) -/

/-- `modelNamesByCode` of `RemotePmacInterface.getPmacModel`. -/
def modelNamesByCode (code : Nat) : Option String :=
  if code = 602404 then some "Turbo PMAC2 Clipper"
  else if code = 602413 then some "Turbo PMAC2-VME"
  else if code = 603382 then some "Geo Brick (3U Turbo PMAC2)"
  else none

/-- `RemotePmacInterface.getPmacModel` as a function of the cached
model code: an unknown code raises `ValueError("Unsupported PMAC
model")`. -/
def getPmacModel (code : Nat) : Except String String :=
  match modelNamesByCode code with
  | some n => .ok n
  | none => .error "Unsupported PMAC model"

/-- `shortModelNamesByCode` of
`RemotePmacInterface.getShortModelName`. -/
def shortModelNamesByCode (code : Nat) : Option String :=
  if code = 602404 then some "Clipper"
  else if code = 602413 then some "Pmac"
  else if code = 603382 then some "Geobrick"
  else none

/-- `RemotePmacInterface.getShortModelName`: an unknown code falls
back to the generic short name `"Pmac"` instead of raising. -/
def getShortModelName (code : Nat) : String :=
  (shortModelNamesByCode code).getD "Pmac"

/-- `PPmacSshInterface.getPmacModel` (source lines 664-676): its own
single-entry table; an unknown code raises `ValueError("Unsupported
Power PMAC model")`. -/
def sshGetPmacModel (code : Nat) : Except String String :=
  if code = 604020 then .ok "Power PMAC UMAC"
  else .error "Unsupported Power PMAC model"

/-! ## Axis addressing -/

/-- `MACRO_STATION_LOOKUP_TABLE` (source lines 96-131): the fixed
34-entry table. -/
def MACRO_STATION_LOOKUP_TABLE : List Int :=
  [0, 1, 4, 5, 8, 9, 12, 13, 16, 17, 20, 21, 24, 25, 28, 29, 32, 33,
   36, 37, 40, 41, 44, 45, 48, 49, 52, 53, 56, 57, 60, 61, 64, 65]

/-- Python list indexing `l[i]`: a negative index counts from the
end; out of bounds raises `IndexError`. -/
def pyIndex (l : List Int) (i : Int) : Except String Int :=
  let j := if i < 0 then i + l.length else i
  if 0 ≤ j ∧ j < l.length then .ok (l.getD j.toNat 0)
  else .error "IndexError: list index out of range"

/-- `RemotePmacInterface.checkAxisIsInRange` as a function of the
cached axis count. -/
def checkAxisIsInRange (numAxes : Nat) (axis : Int) : Except String Unit :=
  if axis < 0 then .error "Asking for a negative axis"
  else if axis > numAxes then
    .error "Requested axis but PMAC has fewer axes"
  else .ok ()

/-- `RemotePmacInterface.getAxisMacroStationNumber` (source lines
334-345), as a function of whether the model is a Geobrick and of the
cached axis count. -/
def getAxisMacroStationNumber (isGeobrick : Bool) (numAxes : Nat)
    (axis : Int) (macroAxisStartIndex : Int) : Except String Int :=
  match checkAxisIsInRange numAxes axis with
  | .error e => .error e
  | .ok _ =>
    if !isGeobrick then
      pyIndex MACRO_STATION_LOOKUP_TABLE (axis - 1)
    else if axis ≤ 8 then
      .error "Axis is not on the MACRO ring"
    else
      (pyIndex MACRO_STATION_LOOKUP_TABLE (axis - 8 - 1)).map
        (fun v => v + macroAxisStartIndex)

/-- `RemotePmacInterface.isMacroStationAxis` (source lines 349-354). -/
def isMacroStationAxis (isGeobrick : Bool) (numAxes : Nat)
    (axis : Int) : Except String Bool :=
  match checkAxisIsInRange numAxes axis with
  | .error e => .error e
  | .ok _ =>
    if !isGeobrick then .ok true
    else .ok (decide (axis > 8))

/-- `RemotePmacInterface.getOnboardAxisI7000PlusVarsBase` (source
lines 412-422): Python `//` and `%` on a positive divisor are
Euclidean division and remainder. -/
def getOnboardAxisI7000PlusVarsBase (isGeobrick : Bool) (numAxes : Nat)
    (axis : Int) : Except String Int :=
  match checkAxisIsInRange numAxes axis with
  | .error e => .error e
  | .ok _ =>
    match isMacroStationAxis isGeobrick numAxes axis with
    | .error e => .error e
    | .ok true => .error "Axis is not an onboard axis"
    | .ok false =>
      let m := (axis - 1).ediv 4
      let n := (axis - 1).emod 4 + 1
      .ok (7000 + m * 100 + n * 10)

/-- True exactly on the `IOError` outcome of the Ethernet exchange. -/
def isIoErr : EthResult → Bool
  | .ioErr _ => true
  | _ => false

/-! ## Theorems -/

/-- When the accumulated string already ends in a terminator, the
continuation loop exits immediately, whatever chunks remain. -/
lemma ethLoop_exit (acc : List Nat) (rest : List (List Nat))
    (h : acc.getLastD 0 = CHAR_ACK ∨ acc.getLastD 0 = CHAR_RETURN) :
    ethLoop acc rest = ethAfterLoop acc := by
  have h2 : acc.getLast?.getD 0 = CHAR_ACK ∨ acc.getLast?.getD 0 = CHAR_RETURN := by
    simpa [List.getLastD_eq_getLast?] using h
  cases rest <;> simp [ethLoop, h2]

/-- C1 (amended): a first received chunk shorter than 1400 bytes is
classified by its terminator: ending in ACK with CR as second-to-last
byte it is returned verbatim; ending in NUL it raises the
`IOPmacSentNullError` condition; ending in a bare CR it is likewise
returned verbatim (passed up so device error responses can be
inspected), not reported as a communication/timeout failure. -/
theorem ethernet_first_chunk_terminators (chunk : List Nat)
    (rest : List (List Nat)) (hne : chunk ≠ [])
    (hshort : chunk.length < 1400) :
    (chunk.getLastD 0 = CHAR_ACK → secondLast chunk = CHAR_RETURN →
      ethExchange chunk rest = .ok chunk) ∧
    (chunk.getLastD 0 = CHAR_NULL →
      ethExchange chunk rest =
        .nullErr "Did not respond - PMAC busy or connection lost") ∧
    (chunk.getLastD 0 = CHAR_RETURN → ethExchange chunk rest = .ok chunk) := by
  have hlen : chunk.length ≠ 0 := by simpa using hne
  refine ⟨?_, ?_, ?_⟩
  · intro hack hsec
    have hack2 : chunk.getLast?.getD 0 = CHAR_ACK := by
      simpa [List.getLastD_eq_getLast?] using hack
    have hloop : ethLoop chunk rest = ethAfterLoop chunk :=
      ethLoop_exit chunk rest (Or.inl hack)
    simp [ethExchange, hlen, hack2, hsec, hshort, CHAR_ACK, CHAR_RETURN,
      CHAR_NULL, hloop, ethAfterLoop]
  · intro hnull
    have hnull2 : chunk.getLast?.getD 0 = CHAR_NULL := by
      simpa [List.getLastD_eq_getLast?] using hnull
    simp [ethExchange, hlen, hnull2, hshort, CHAR_ACK, CHAR_RETURN, CHAR_NULL]
  · intro hcr
    have hcr2 : chunk.getLast?.getD 0 = CHAR_RETURN := by
      simpa [List.getLastD_eq_getLast?] using hcr
    simp [ethExchange, hlen, hcr2, hshort, CHAR_ACK, CHAR_RETURN, CHAR_NULL]

/-- Witness for C1: concrete chunks exercising the ACK-with-CR case
and the NUL case. -/
theorem ethernet_first_chunk_terminators_witness :
    ethExchange [0x0D, 0x06] [] = EthResult.ok [0x0D, 0x06] ∧
    ethExchange [0x30, 0x00] [] =
      EthResult.nullErr "Did not respond - PMAC busy or connection lost" := by
  constructor
  · exact (ethernet_first_chunk_terminators [0x0D, 0x06] [] (by decide)
      (by decide)).1 (by decide) (by decide)
  · exact (ethernet_first_chunk_terminators [0x30, 0x00] [] (by decide)
      (by decide)).2.1 (by decide)

/-- Counterexample for C1 as stated: the two-byte chunk `"A\r"` is
shorter than 1400 bytes and ends in a bare CR, yet the exchange does
not fail — the chunk is returned verbatim (the source's first branch
is `pass`, falling through to `return returnStr`). -/
theorem ethernet_short_cr_counterexample :
    ethExchange [0x41, 0x0D] [] = EthResult.ok [0x41, 0x0D] ∧
    isIoErr (ethExchange [0x41, 0x0D] []) = false := ⟨rfl, rfl⟩

/-- C3: an empty first chunk makes the Ethernet exchange evaluate
`returnStr[len(returnStr) - 1]`, raising `IndexError` — not the
intended `IOError` — and `IndexError` is not caught by `sendCommand`,
so it escapes as a language-level exception instead of becoming
`(message, False)`.  The last conjunct shows the translation the
unreachable `response_len == 0` branch would have produced. -/
theorem ethernet_empty_chunk_index_error :
    ethExchange [] [] = EthResult.indexErr ∧
    ethSendCommand "i20" [] [] = SendResult.exc "IndexError" ∧
    sendCommand "i20"
        (.ioErr "PMAC communication error: unexpected terminator") =
      .ret (some ("I/O error during comm with PMAC: " ++
        "PMAC communication error: unexpected terminator")) false :=
  ⟨rfl, rfl, rfl⟩

/-- C4: the NULL-terminator condition is swallowed into `("", True)`
exactly when the command needs the double timeout, i.e. contains
"SAVE" case-insensitively; otherwise it is reported as
`(error message, False)`. -/
theorem sendCommand_null_save_carveout (command m : String) :
    (sendCommand command (.nullErr m) = .ret (some "") true ↔
      commandNeedsDoubleTimeout command = true) ∧
    (commandNeedsDoubleTimeout command = false →
      sendCommand command (.nullErr m) =
        .ret (some ("I/O error during comm with PMAC: " ++ m)) false) ∧
    commandNeedsDoubleTimeout command =
      hasSub "SAVE".toList (command.toList.map Char.toUpper) := by
  refine ⟨⟨?_, ?_⟩, ?_, rfl⟩
  · intro h
    cases hd : commandNeedsDoubleTimeout command with
    | true => rfl
    | false => simp [sendCommand, hd] at h
  · intro hd
    simp [sendCommand, hd]
  · intro hd
    simp [sendCommand, hd]

/-- Witness for C4: `SAVE` swallows the NULL condition, `i20` does
not. -/
theorem sendCommand_null_save_carveout_witness :
    sendCommand "SAVE" (.nullErr "busy") = SendResult.ret (some "") true ∧
    sendCommand "i20" (.nullErr "busy") =
      SendResult.ret (some ("I/O error during comm with PMAC: " ++ "busy"))
        false := by
  constructor
  · exact ((sendCommand_null_save_carveout "SAVE" "busy").1).mpr (by decide)
  · exact (sendCommand_null_save_carveout "i20" "busy").2.1 (by decide)

/-- C5: an I/O fault from the transport's exchange becomes
`(error message, False)`; a returned reply becomes `(reply, True)` —
in particular a reply containing a device `ERRxxx` code is still
returned with success. -/
theorem sendCommand_faults_and_replies :
    (∀ command m : String,
      sendCommand command (.ioErr m) =
        .ret (some ("I/O error during comm with PMAC: " ++ m)) false) ∧
    (∀ command s : String,
      sendCommand command (.reply (some s)) = .ret (some s) true) ∧
    sendCommand "i20" (.reply (some "ERR003\r\x06")) =
      .ret (some "ERR003\r\x06") true :=
  ⟨fun _ _ => rfl, fun _ _ => rfl, rfl⟩

/-- C9: model code 603382 is "Geo Brick (3U Turbo PMAC2)" with short
name "Geobrick"; on the SSH interface 604020 is "Power PMAC UMAC";
any code outside the table makes `getPmacModel` raise the
unsupported-model error while `getShortModelName` falls back to
"Pmac". -/
theorem model_registry_lookup :
    getPmacModel 603382 = .ok "Geo Brick (3U Turbo PMAC2)" ∧
    getShortModelName 603382 = "Geobrick" ∧
    sshGetPmacModel 604020 = .ok "Power PMAC UMAC" ∧
    (∀ code : Nat, code ≠ 602404 → code ≠ 602413 → code ≠ 603382 →
      getPmacModel code = .error "Unsupported PMAC model" ∧
      getShortModelName code = "Pmac") := by
  refine ⟨rfl, rfl, rfl, ?_⟩
  intro code h1 h2 h3
  constructor
  · simp [getPmacModel, modelNamesByCode, h1, h2, h3]
  · simp [getShortModelName, shortModelNamesByCode, h1, h2, h3]

/-- Witness for C9: the unknown code 999999. -/
theorem model_registry_lookup_witness :
    getPmacModel 999999 = Except.error "Unsupported PMAC model" ∧
    getShortModelName 999999 = "Pmac" :=
  model_registry_lookup.2.2.2 999999 (by decide) (by decide) (by decide)

/-- As long as no loop iteration raises, the `sendSeries` loop leaves
the semaphore released, whatever the consumer does. -/
lemma seriesLoop_semHeld :
    ∀ (cmds : List ((Nat × String) × SendResult)) (limit : Nat),
      (∀ e ∈ cmds, stepFaults e.2 = false) →
      (seriesLoop cmds limit).semHeld = false := by
  intro cmds
  induction cmds with
  | nil => intro limit _; rfl
  | cons e rest ih =>
    intro limit hall
    obtain ⟨⟨ln, cmd⟩, res⟩ := e
    have hf : stepFaults res = false := hall _ (List.mem_cons_self _ _)
    cases res with
    | exc e => simp [stepFaults] at hf
    | ret respOpt ws =>
      cases respOpt with
      | none =>
        cases ws with
        | true => simp [stepFaults] at hf
        | false =>
          simp only [seriesLoop]
          rw [if_neg (by simp)]
          split
          · rfl
          · exact ih (limit - 1) fun e he => hall e (List.mem_cons_of_mem _ he)
      | some r =>
        simp only [seriesLoop]
        split
        · rfl
        · exact ih (limit - 1) fun e he => hall e (List.mem_cons_of_mem _ he)

/-- C2 (amended): `sendSeries` releases the connection semaphore on
normal completion and when the consumer aborts the iteration early
(`GeneratorExit` is caught and releases it); however the loop body
has no release on the fault path, so the no-held-semaphore guarantee
holds only when no iteration raises — see the counterexample for the
fault path. -/
theorem sendSeries_guard_release (cmds : List ((Nat × String) × SendResult))
    (limit : Nat) (h : ∀ e ∈ cmds, stepFaults e.2 = false) :
    (runSendSeries cmds limit).semHeld = false := by
  unfold runSendSeries
  split
  · rfl
  · exact seriesLoop_semHeld cmds limit h

/-- Witness for C2: the consumer aborts after one of two commands and
the semaphore is still released. -/
theorem sendSeries_guard_release_witness :
    (runSendSeries [((0, "cmd1"), .ret (some "response") true),
      ((1, "cmd2"), .ret (some "response") true)] 1).semHeld = false :=
  sendSeries_guard_release _ 1 (by decide)

/-- Counterexample for C2 as stated: a fault raised while sending a
command (here the Ethernet transport's `IndexError` propagating
through `sendCommand`) terminates the generator with the semaphore
still held — release-on-any-exit fails on the fault path. -/
theorem sendSeries_fault_keeps_guard :
    runSendSeries [((0, "cmd1"), SendResult.exc "IndexError")] 5 =
      ⟨[], true, .faulted "IndexError"⟩ ∧
    (runSendSeries [((0, "cmd1"), SendResult.exc "IndexError")] 5).semHeld =
      true :=
  ⟨rfl, rfl⟩

/-- When every `sendCommand` result is a `(string, bool)` tuple and
the consumer keeps consuming, the loop yields one processed tuple per
command in order and finishes normally. -/
lemma seriesLoop_yields :
    ∀ (cmds : List ((Nat × String) × SendResult)) (limit : Nat),
      cmds.length < limit →
      (∀ e ∈ cmds, ∃ r b, e.2 = SendResult.ret (some r) b) →
      seriesLoop cmds limit = ⟨cmds.map expectedYield, false, .normal⟩ := by
  intro cmds
  induction cmds with
  | nil => intro limit _ _; rfl
  | cons e rest ih =>
    intro limit hlen hall
    obtain ⟨⟨ln, cmd⟩, res⟩ := e
    obtain ⟨r, b, hr⟩ := hall _ (List.mem_cons_self _ _)
    dsimp only at hr
    subst hr
    simp only [List.length_cons] at hlen
    simp only [seriesLoop]
    rw [if_neg (by omega)]
    rw [ih (limit - 1) (by omega) fun e he => hall e (List.mem_cons_of_mem _ he)]
    simp [expectedYield]

/-- C6: `sendSeries` yields `(wasSuccessful, lineNumber, command,
response)` per command in list order, with `wasSuccessful` true iff
`sendCommand` succeeded and the response has no `ERR` + three digits
substring; the last conjunct spells out the per-command tuple. -/
theorem sendSeries_yields_per_command
    (cmds : List ((Nat × String) × SendResult)) (limit : Nat)
    (hlen : cmds.length < limit)
    (hall : ∀ e ∈ cmds, ∃ r b, e.2 = SendResult.ret (some r) b) :
    (runSendSeries cmds limit).yields = cmds.map expectedYield ∧
    (runSendSeries cmds limit).exitKind = .normal ∧
    (runSendSeries cmds limit).semHeld = false ∧
    (∀ (ln : Nat) (cmd r : String) (b : Bool),
      expectedYield ((ln, cmd), .ret (some r) b) =
        (b && !containsErrCode r.toList, ln, cmd, some r)) := by
  have hrun : runSendSeries cmds limit =
      ⟨cmds.map expectedYield, false, .normal⟩ := by
    unfold runSendSeries
    rw [if_neg (by omega)]
    exact seriesLoop_yields cmds limit hlen hall
  exact ⟨by rw [hrun], by rw [hrun], by rw [hrun], fun _ _ _ _ => rfl⟩

/-- Witness for C6: the spec's two-command example against a
transport answering `("response", True)` each time. -/
theorem sendSeries_yields_per_command_witness :
    (runSendSeries [((0, "cmd1"), .ret (some "response") true),
      ((1, "cmd2"), .ret (some "response") true)] 3).yields =
      [(true, 0, "cmd1", some "response"),
       (true, 1, "cmd2", some "response")] := by
  have h := sendSeries_yields_per_command
    [((0, "cmd1"), SendResult.ret (some "response") true),
     ((1, "cmd2"), SendResult.ret (some "response") true)] 3
    (by decide)
    (by
      intro e he
      simp only [List.mem_cons, List.mem_singleton] at he
      rcases he with h | h | h
      · subst h; exact ⟨"response", true, rfl⟩
      · subst h; exact ⟨"response", true, rfl⟩
      · exact absurd h (by simp))
  exact h.1.trans (by decide)

/-- C7: `getAxisMacroStationNumber` with start offset 0 — on a
Geobrick it raises for axes 1..8, returns 0 for axis 9 and 1 for axis
10; on a non-Geobrick it returns the 34-entry table's entry at index
`axis - 1` for every in-range axis. -/
theorem getAxisMacroStationNumber_spec :
    (∀ (numAxes : Nat) (axis : Int), 1 ≤ axis → axis ≤ 8 →
      ∃ e, getAxisMacroStationNumber true numAxes axis 0 = .error e) ∧
    (∀ numAxes : Nat, 9 ≤ numAxes →
      getAxisMacroStationNumber true numAxes 9 0 = .ok 0) ∧
    (∀ numAxes : Nat, 10 ≤ numAxes →
      getAxisMacroStationNumber true numAxes 10 0 = .ok 1) ∧
    (∀ (numAxes : Nat) (axis : Int), 1 ≤ axis → axis ≤ numAxes →
      numAxes ≤ 34 →
      getAxisMacroStationNumber false numAxes axis 0 =
        .ok (MACRO_STATION_LOOKUP_TABLE.getD (axis - 1).toNat 0)) := by
  refine ⟨?_, ?_, ?_, ?_⟩
  · intro n a h1 h8
    simp only [getAxisMacroStationNumber, checkAxisIsInRange]
    rw [if_neg (by omega)]
    by_cases hr : a > (n : Int)
    · rw [if_pos hr]
      exact ⟨_, rfl⟩
    · rw [if_neg hr]
      refine ⟨"Axis is not on the MACRO ring", ?_⟩
      simp [h8]
  · intro n h9
    simp only [getAxisMacroStationNumber, checkAxisIsInRange]
    rw [if_neg (by omega), if_neg (by omega)]
    rfl
  · intro n h10
    simp only [getAxisMacroStationNumber, checkAxisIsInRange]
    rw [if_neg (by omega), if_neg (by omega)]
    rfl
  · intro n a h1 hn h34
    have hL : MACRO_STATION_LOOKUP_TABLE.length = 34 := rfl
    have hge : ¬((a : Int) - 1 < 0) := by omega
    simp only [getAxisMacroStationNumber, checkAxisIsInRange]
    rw [if_neg (by omega), if_neg (by omega)]
    simp only [Bool.not_false, if_true, pyIndex, hL, hge, if_false]
    rw [if_pos ⟨by omega, by omega⟩]

/-- Witness for C7: a Geobrick with 16 axes and a 32-axis
non-Geobrick. -/
theorem getAxisMacroStationNumber_spec_witness :
    (∃ e, getAxisMacroStationNumber true 16 3 0 = Except.error e) ∧
    getAxisMacroStationNumber true 16 9 0 = Except.ok 0 ∧
    getAxisMacroStationNumber true 16 10 0 = Except.ok 1 ∧
    getAxisMacroStationNumber false 32 32 0 = Except.ok 61 := by
  refine ⟨getAxisMacroStationNumber_spec.1 16 3 (by decide) (by decide),
    getAxisMacroStationNumber_spec.2.1 16 (by decide),
    getAxisMacroStationNumber_spec.2.2.1 16 (by decide), ?_⟩
  have h := getAxisMacroStationNumber_spec.2.2.2 32 32 (by decide)
    (by decide) (by decide)
  exact h.trans (by rfl)

/-- C8: for every in-range non-macro-station (on-board Geobrick)
axis, `getOnboardAxisI7000PlusVarsBase` computes
`7000 + 100*((axis-1) div 4) + 10*(((axis-1) mod 4) + 1)`; in
particular 7010, 7040, 7110 for axes 1, 4, 5; a macro-station axis
raises. -/
theorem getOnboardAxisI7000PlusVarsBase_spec :
    (∀ (numAxes : Nat) (axis : Int), 0 ≤ axis → axis ≤ numAxes →
      axis ≤ 8 →
      getOnboardAxisI7000PlusVarsBase true numAxes axis =
        .ok (7000 + 100 * ((axis - 1).ediv 4) +
          10 * ((axis - 1).emod 4 + 1))) ∧
    getOnboardAxisI7000PlusVarsBase true 10 1 = .ok 7010 ∧
    getOnboardAxisI7000PlusVarsBase true 10 4 = .ok 7040 ∧
    getOnboardAxisI7000PlusVarsBase true 10 5 = .ok 7110 ∧
    (∀ (g : Bool) (numAxes : Nat) (axis : Int),
      isMacroStationAxis g numAxes axis = .ok true →
      getOnboardAxisI7000PlusVarsBase g numAxes axis =
        .error "Axis is not an onboard axis") := by
  refine ⟨?_, rfl, rfl, rfl, ?_⟩
  · intro n a h0 hn h8
    have hc : checkAxisIsInRange n a = .ok () := by
      simp only [checkAxisIsInRange]
      rw [if_neg (by omega), if_neg (by omega)]
    have hm : isMacroStationAxis true n a = .ok false := by
      simp only [isMacroStationAxis, hc]
      simp [show ¬((8 : Int) < a) from by omega]
    simp only [getOnboardAxisI7000PlusVarsBase, hc, hm]
    congr 1
    ring
  · intro g n a h
    cases hc : checkAxisIsInRange n a with
    | error e => simp [isMacroStationAxis, hc] at h
    | ok u => simp [getOnboardAxisI7000PlusVarsBase, hc, h]

/-- Witness for C8: on-board axis 2 and macro-station axis 9. -/
theorem getOnboardAxisI7000PlusVarsBase_spec_witness :
    getOnboardAxisI7000PlusVarsBase true 10 2 = Except.ok 7020 ∧
    getOnboardAxisI7000PlusVarsBase true 16 9 =
      Except.error "Axis is not an onboard axis" := by
  constructor
  · have h := getOnboardAxisI7000PlusVarsBase_spec.1 10 2 (by decide)
      (by decide) (by decide)
    exact h.trans (by rfl)
  · exact getOnboardAxisI7000PlusVarsBase_spec.2.2.2.2 true 16 9 (by rfl)

/-- C10: an exception raised while sending or receiving on the
SSH/gpascii transport makes `_sendCommand` return `None`, and
`sendCommand` then reports `(None, True)` — a success with a `None`
response — rather than an `(error message, False)` failure. -/
theorem ssh_exception_returns_none :
    (∀ (cmd : String) (recvs : List (Option (List Char))),
      sshSendCommand cmd ⟨none, recvs⟩ = .val none) ∧
    (∀ (cmd : String) (n : Nat) (rest : List (Option (List Char))),
      sshSendCommand cmd ⟨some n, none :: rest⟩ = .val none) ∧
    (∀ (cmd : String) (n : Nat) (r0 : List Char)
        (rest : List (Option (List Char))),
      sshRecvLoop r0 0 rest = .exc →
      sshSendCommand cmd ⟨some n, some r0 :: rest⟩ = .val none) ∧
    (∀ cmd : String, sendCommand cmd (.reply none) = .ret none true) := by
  refine ⟨fun _ _ => rfl, fun _ _ _ => rfl, ?_, fun _ => rfl⟩
  intro cmd n r0 rest h
  simp [sshSendCommand, h]

/-- Witness for C10: a receive raising mid-loop. -/
theorem ssh_exception_returns_none_witness :
    sshSendCommand "cid" ⟨some 5, [some "cid\r".toList, none]⟩ =
      SshResult.val none ∧
    sendCommand "cid" (.reply none) = SendResult.ret none true := by
  constructor
  · exact ssh_exception_returns_none.2.2.1 "cid" 5 "cid\r".toList [none]
      (by decide)
  · exact ssh_exception_returns_none.2.2.2 "cid"

end DlsPmacLib
